import Mathlib

/-!
# Verification of the document-extractor service core

A shallow embedding of the core of `main.py`: the smart chunker
(`create_smart_chunks`), the PDF extraction cascade (`extract_pdf`,
`extract_pdf_with_ocr`, `extract_pdf_tables`), the format dispatcher of
`extract_document`, and the plain-text extractor (`extract_text`).

Python strings are modelled as `List Char` (one entry per code point, so
`len` agrees with `List.length`); byte strings as `List (Fin 256)`.  The
external PDF readers and the OCR engine are modelled by an environment
record (`PdfEnv`) describing what each collaborator returns, `none`
standing for a raised exception.  The cascade's functions additionally
return the list of observable effects (strategy invocations and
temporary-file operations) so that control-flow properties can be stated.
-/

namespace DocExtractor

/-- The ASCII whitespace characters stripped by Python `str.strip()`. -/
def isPyWs (c : Char) : Bool :=
  c = ' ' || c = '\t' || c = '\n' || c = '\r' || c = '\x0b' || c = '\x0c'

/-- Python `s.strip()`: drop leading and trailing whitespace. -/
def pyStrip (s : List Char) : List Char :=
  ((s.dropWhile isPyWs).reverse.dropWhile isPyWs).reverse

/-- Python `s.split(sep)` for a one-character separator: scan left to
right, cutting at each occurrence. -/
def pySplit1 (sep : Char) : List Char → List (List Char)
  | [] => [[]]
  | c :: cs =>
    if c = sep then [] :: pySplit1 sep cs
    else
      match pySplit1 sep cs with
      | [] => [[c]]
      | p :: ps => (c :: p) :: ps

/-- Python `s.split(sep)` for a two-character separator `⟨a, b⟩`: scan
left to right, cutting at each non-overlapping occurrence. -/
def pySplit2 (a b : Char) : List Char → List (List Char)
  | [] => [[]]
  | [c] => [[c]]
  | c :: d :: cs =>
    if c = a ∧ d = b then [] :: pySplit2 a b cs
    else
      match pySplit2 a b (d :: cs) with
      | [] => [[c]]
      | p :: ps => (c :: p) :: ps

/-- Python `sep.join(parts)`. -/
def pyJoin (sep : List Char) (parts : List (List Char)) : List Char :=
  List.intercalate sep parts

/-- One chunk produced by `create_smart_chunks` (the Python dict with keys
`content`, `chunk_index`, `total_chunks`, `start_position`,
`end_position`; `total_chunks` is filled in by the final pass, `0` until
then). -/
structure Chunk where
  content : List Char
  chunk_index : Nat
  total_chunks : Nat
  start_position : Int
  end_position : Int
deriving Repr, DecidableEq

/-- The chunker's loop state: the accumulated `chunks` list and the
`current_chunk` / `chunk_index` / `start_position` variables. -/
structure ChunkState where
  chunks : List Chunk
  current : List Char
  chunk_index : Nat
  start_position : Int
deriving Repr

/-- The body of the inner sentence loop of `create_smart_chunks`
(lines 66-78 of `main.py`): greedy packing of one sentence. -/
def processSentence (chunk_size : Nat) (st : ChunkState) (sentence : List Char) : ChunkState :=
  if st.current.length + sentence.length + 2 > chunk_size then
    { chunks := st.chunks ++ [{ content := pyStrip st.current
                              , chunk_index := st.chunk_index
                              , total_chunks := 0
                              , start_position := st.start_position
                              , end_position := st.start_position + st.current.length }]
    , chunk_index := st.chunk_index + 1
    , start_position := st.start_position + st.current.length
    , current := sentence ++ ['.', ' '] }
  else
    { st with current := st.current ++ sentence ++ ['.', ' '] }

/-- The body of the paragraph loop of `create_smart_chunks`
(lines 43-85 of `main.py`): close the chunk and re-seed with the overlap
tail, or fall back to sentence splitting, or append the paragraph. -/
def processParagraph (chunk_size : Nat) (st : ChunkState) (paragraph : List Char) : ChunkState :=
  if st.current.length + paragraph.length + 2 > chunk_size then
    if st.current ≠ [] then
      let lines := pySplit1 '\n' st.current
      let overlap_lines := if lines.length > 5 then lines.drop (lines.length - 5) else lines
      let overlap_text := pyJoin ['\n'] overlap_lines
      { chunks := st.chunks ++ [{ content := pyStrip st.current
                                , chunk_index := st.chunk_index
                                , total_chunks := 0
                                , start_position := st.start_position
                                , end_position := st.start_position + st.current.length }]
      , chunk_index := st.chunk_index + 1
      , start_position := st.start_position + st.current.length - overlap_text.length
      , current := overlap_text ++ '\n' :: '\n' :: paragraph }
    else
      if paragraph.length > chunk_size then
        (pySplit2 '.' ' ' paragraph).foldl (processSentence chunk_size) st
      else
        { st with current := paragraph }
  else
    if st.current ≠ [] then
      { st with current := st.current ++ '\n' :: '\n' :: paragraph }
    else
      { st with current := paragraph }

/-- The function `create_smart_chunks` of `main.py` (lines 24-100): single-chunk early
return for short text, else paragraph-wise greedy packing, a final flush,
and a second pass setting every `total_chunks`. -/
def create_smart_chunks (text : List Char) (chunk_size : Nat) (overlap : Nat) : List Chunk :=
  if text = [] ∨ text.length ≤ chunk_size then
    [{ content := text
     , chunk_index := 0
     , total_chunks := 1
     , start_position := 0
     , end_position := if text = [] then 0 else text.length }]
  else
    let st := (pySplit2 '\n' '\n' text).foldl (processParagraph chunk_size)
      { chunks := [], current := [], chunk_index := 0, start_position := 0 }
    let allChunks :=
      if st.current ≠ [] then
        st.chunks ++ [{ content := pyStrip st.current
                      , chunk_index := st.chunk_index
                      , total_chunks := 0
                      , start_position := st.start_position
                      , end_position := (text.length : Int) }]
      else st.chunks
    allChunks.map fun c => { c with total_chunks := allChunks.length }

/-! ## The PDF extraction cascade (`extract_pdf` and helpers) -/

/-- Python `s.strip()` at the `String` level. -/
def pyStripS (s : String) : String := String.mk (pyStrip s.data)

/-- A page as seen by the secondary reader (pdfplumber): its extracted
text and its detected tables (row-major cell grids). -/
structure SecPage where
  text : String
  tables : List (List (List String))
deriving Repr, DecidableEq

/-- The external collaborators of the PDF cascade.  A `none` models the
collaborator raising: `primary = none` is `PyPDF2.PdfReader` raising on
open, `secondary = none` is `pdfplumber.open` raising on the temporary
file, `ocr = none` is `convert_from_bytes` raising (with message
`ocrErrMsg`).  A `some` carries the per-page payloads the collaborator
returns. -/
structure PdfEnv where
  primary : Option (List String)
  secondary : Option (List SecPage)
  ocr : Option (List String)
  ocrErrMsg : String
deriving Repr, DecidableEq

/-- Observable effects of one `extract_pdf` call: invoking the
fallback-parser strategy (`pdfplumber` on a temporary file), invoking the
OCR routine, invoking the table-extraction step, and creating/deleting a
temporary file (identified by its creation site: `0` for the
fallback-parser step, `1` for the table step). -/
inductive Ev where
  | fallbackParser
  | ocr
  | tableExtraction
  | tmpCreated (id : Nat)
  | tmpDeleted (id : Nat)
deriving Repr, DecidableEq

/-- A table record of the Python result (`table_index`, `page`, `data`). -/
structure TableRec where
  table_index : Nat
  page : Nat
  data : List (List String)
deriving Repr, DecidableEq

/-- The accumulator dict of `extract_pdf` (lines 163-169 of `main.py`). -/
structure PdfResult where
  text : String
  tables : List TableRec
  pages : Nat
  needs_ocr : Bool
  metadata : List (String × String)
deriving Repr, DecidableEq

/-- The page-separator header `f"--- Página {n} ---\n"`. -/
def pageHeader (n : Nat) : String := "--- Página " ++ toString n ++ " ---\n"

/-- The OCR page-separator header `f"--- Página {n} (OCR) ---\n"`. -/
def ocrHeader (n : Nat) : String := "--- Página " ++ toString n ++ " (OCR) ---\n"

/-- The direct-strategy page loop (lines 177-184 of `main.py`): collect a
header-tagged part for every page whose text is non-empty after
stripping, and set `needs_ocr` on any other page. -/
def directScan (pageTexts : List String) : List String × Bool :=
  pageTexts.enum.foldl
    (fun acc ip =>
      if ip.2 ≠ "" ∧ pyStripS ip.2 ≠ "" then
        (acc.1 ++ [pageHeader (ip.1 + 1) ++ ip.2], acc.2)
      else
        (acc.1, true))
    ([], false)

/-- The direct strategy's concatenated text (line 185 of `main.py`). -/
def directText (pageTexts : List String) : String :=
  String.intercalate "\n\n" (directScan pageTexts).1

/-- The function `extract_pdf_with_ocr` (lines 222-234 of `main.py`): rasterize and
recognize each page, or return the literal error string when the
rasterizer raises.  Never raises. -/
def extract_pdf_with_ocr (env : PdfEnv) : String × List Ev :=
  match env.ocr with
  | some pageTexts =>
      (String.intercalate "\n\n"
        (pageTexts.enum.map fun ip => ocrHeader (ip.1 + 1) ++ ip.2),
       [Ev.ocr])
  | none => ("Error en OCR: " ++ env.ocrErrMsg, [Ev.ocr])

/-- The function `extract_pdf_tables` (lines 236-262 of `main.py`): materialize to a
temporary file, open with the secondary reader, collect every non-empty
table tagged with its page; on failure swallow and return the empty
list.  The temporary file is unlinked only on the success path. -/
def extract_pdf_tables (env : PdfEnv) (tmpId : Nat) : List TableRec × List Ev :=
  match env.secondary with
  | some pages =>
      (pages.enum.foldl
        (fun acc ip =>
          acc ++ ip.2.tables.enum.foldl
            (fun acc2 it =>
              if it.2 ≠ [] then
                acc2 ++ [{ table_index := it.1, page := ip.1 + 1, data := it.2 }]
              else acc2)
            [])
        [],
       [Ev.tableExtraction, Ev.tmpCreated tmpId, Ev.tmpDeleted tmpId])
  | none => ([], [Ev.tableExtraction, Ev.tmpCreated tmpId])

/-- The function `extract_pdf` (lines 161-220 of `main.py`).  The primary-reader pass
runs the direct page loop; if the concatenated text is blank after
stripping or shorter than 100 characters and `use_ocr` is set, OCR
replaces it; table extraction then runs when requested.  When the
primary reader raises, the except-branch materializes a temporary file
and tries the secondary reader; when that raises too, OCR runs if
enabled, else the initial accumulator is returned unchanged. -/
def extract_pdf (env : PdfEnv) (extract_tables use_ocr : Bool) : PdfResult × List Ev :=
  match env.primary with
  | some pageTexts =>
      let scan := directScan pageTexts
      let text0 := String.intercalate "\n\n" scan.1
      let afterOcr : String × Bool × List Ev :=
        if (pyStripS text0 = "" ∨ text0.length < 100) ∧ use_ocr then
          let o := extract_pdf_with_ocr env
          (o.1, true, o.2)
        else (text0, scan.2, [])
      let tabs := if extract_tables then extract_pdf_tables env 1 else ([], [])
      ({ text := afterOcr.1
       , tables := tabs.1
       , pages := pageTexts.length
       , needs_ocr := afterOcr.2.1
       , metadata := [] },
       afterOcr.2.2 ++ tabs.2)
  | none =>
      match env.secondary with
      | some pages =>
          let parts := pages.enum.foldl
            (fun acc ip =>
              if ip.2.text ≠ "" then acc ++ [pageHeader (ip.1 + 1) ++ ip.2.text]
              else acc)
            []
          ({ text := String.intercalate "\n\n" parts
           , tables := []
           , pages := pages.length
           , needs_ocr := false
           , metadata := [] },
           [Ev.tmpCreated 0, Ev.fallbackParser, Ev.tmpDeleted 0])
      | none =>
          if use_ocr then
            let o := extract_pdf_with_ocr env
            ({ text := o.1, tables := [], pages := 0, needs_ocr := true, metadata := [] },
             [Ev.tmpCreated 0, Ev.fallbackParser] ++ o.2)
          else
            ({ text := "", tables := [], pages := 0, needs_ocr := false, metadata := [] },
             [Ev.tmpCreated 0, Ev.fallbackParser])

/-! ## The format dispatcher and the error surface of `extract_document` -/

/-- The six extractors of the dispatch table. -/
inductive Extractor where
  | pdf | docx | excel | pptx | image | text
deriving Repr, DecidableEq

/-- Python `s.lower()` (ASCII case folding, as in the filenames at hand). -/
def pyLower (s : List Char) : List Char := s.map Char.toLower

/-- Python `s.endswith(pat)`. -/
def pyEndsWith (s pat : List Char) : Bool := pat.isSuffixOf s

/-- The suffix dispatch of `extract_document` (lines 121-133 of
`main.py`), applied to the already-lowercased filename. -/
def dispatch (lowered : List Char) : Option Extractor :=
  if pyEndsWith lowered ".pdf".data then some .pdf
  else if pyEndsWith lowered ".docx".data || pyEndsWith lowered ".doc".data then some .docx
  else if pyEndsWith lowered ".xlsx".data || pyEndsWith lowered ".xls".data then some .excel
  else if pyEndsWith lowered ".pptx".data || pyEndsWith lowered ".ppt".data then some .pptx
  else if pyEndsWith lowered ".png".data || pyEndsWith lowered ".jpg".data
       || pyEndsWith lowered ".jpeg".data || pyEndsWith lowered ".tiff".data
       || pyEndsWith lowered ".bmp".data then some .image
  else if pyEndsWith lowered ".txt".data || pyEndsWith lowered ".md".data then some .text
  else none

/-- An HTTP error value (`fastapi.HTTPException`): a status code and a
detail string (as a character list). -/
structure HttpError where
  status_code : Nat
  detail : List Char
deriving Repr, DecidableEq

deriving instance DecidableEq for Except

/-- The routing step of `extract_document`: the filename is lowercased
(line 118), routed (lines 121-133), and an unrecognized suffix raises a
400 error whose detail embeds the lowercased name (line 134). -/
def extract_document_route (filename : List Char) : Except HttpError Extractor :=
  match dispatch (pyLower filename) with
  | some e => Except.ok e
  | none =>
      Except.error
        { status_code := 400
        , detail := "Formato no soportado: ".data ++ pyLower filename }

/-- The string rendering of the framework exception:
`str(HTTPException(status, detail))` is `"{status}: {detail}"`. -/
def strOfHttpError (e : HttpError) : List Char :=
  Nat.toDigits 10 e.status_code ++ ':' :: ' ' :: e.detail

/-- The error surface of `extract_document`: the catch-all
`except Exception` (lines 158-159 of `main.py`) intercepts every raised
exception — including the dispatcher's own 400 — and re-raises it as a
500 whose detail is the string rendering of the original exception. -/
def extract_document_dispatch (filename : List Char) : Except HttpError Extractor :=
  match extract_document_route filename with
  | Except.ok e => Except.ok e
  | Except.error e => Except.error { status_code := 500, detail := strOfHttpError e }

/-! ## The plain-text extractor (`extract_text`) -/

/-- A UTF-8 continuation byte (`0x80`-`0xBF`). -/
def isCont (b : Fin 256) : Bool := 0x80 ≤ b.val && b.val ≤ 0xBF

/-- Strict UTF-8 decoding of a byte string, as Python
`bytes.decode('utf-8')`: rejects overlong forms, surrogates, lead bytes
`0xC0`/`0xC1`/`0xF5`-`0xFF`, stray continuation bytes, and truncated
sequences; `none` models `UnicodeDecodeError`. -/
def utf8Decode : List (Fin 256) → Option (List Char)
  | [] => some []
  | b :: rest =>
    if b.val < 0x80 then
      (utf8Decode rest).map (fun t => Char.ofNat b.val :: t)
    else if b.val < 0xC2 then none
    else if b.val < 0xE0 then
      match rest with
      | c1 :: rest1 =>
        if isCont c1 then
          (utf8Decode rest1).map
            (fun t => Char.ofNat ((b.val - 0xC0) * 64 + (c1.val - 0x80)) :: t)
        else none
      | [] => none
    else if b.val < 0xF0 then
      match rest with
      | c1 :: c2 :: rest2 =>
        if (if b.val = 0xE0 then decide (0xA0 ≤ c1.val) && decide (c1.val ≤ 0xBF)
            else if b.val = 0xED then decide (0x80 ≤ c1.val) && decide (c1.val ≤ 0x9F)
            else isCont c1) && isCont c2 then
          (utf8Decode rest2).map
            (fun t => Char.ofNat ((b.val - 0xE0) * 4096 + (c1.val - 0x80) * 64 + (c2.val - 0x80)) :: t)
        else none
      | _ => none
    else if b.val < 0xF5 then
      match rest with
      | c1 :: c2 :: c3 :: rest3 =>
        if (if b.val = 0xF0 then decide (0x90 ≤ c1.val) && decide (c1.val ≤ 0xBF)
            else if b.val = 0xF4 then decide (0x80 ≤ c1.val) && decide (c1.val ≤ 0x8F)
            else isCont c1) && isCont c2 && isCont c3 then
          (utf8Decode rest3).map
            (fun t => Char.ofNat ((b.val - 0xF0) * 262144 + (c1.val - 0x80) * 4096
                                  + (c2.val - 0x80) * 64 + (c3.val - 0x80)) :: t)
        else none
      | _ => none
    else none

/-- Latin-1 decoding: one character per byte, total on all byte strings. -/
def latin1 (content : List (Fin 256)) : List Char :=
  content.map (fun b => Char.ofNat b.val)

/-- The result dict of `extract_text` (`text`, `lines`, `characters`,
and the `encoding` key present only on the Latin-1 path). -/
structure TextResult where
  text : List Char
  lines : Nat
  characters : Nat
  encoding : Option String
deriving Repr, DecidableEq

/-- The function `extract_text` (lines 401-418 of `main.py`): decode as UTF-8; on
`UnicodeDecodeError` decode as Latin-1 and tag the result with the
fallback encoding name; report `len(text.split('\n'))` lines and
`len(text)` characters. -/
def extract_text (content : List (Fin 256)) : TextResult :=
  match utf8Decode content with
  | some t =>
      { text := t, lines := (pySplit1 '\n' t).length, characters := t.length, encoding := none }
  | none =>
      let t := latin1 content
      { text := t, lines := (pySplit1 '\n' t).length, characters := t.length, encoding := some "latin-1" }

/-! ## Invariants and concrete inputs used by the verification -/

/-- Every chunk accumulated so far has whitespace-stripped content. -/
def StrippedChunks (st : ChunkState) : Prop :=
  ∀ c ∈ st.chunks, pyStrip c.content = c.content

/-- The head of the accumulated chunk list (if any) is bounded by
`chunk_size`, and while no chunk has been closed yet the running buffer
is bounded by `chunk_size`. -/
def HeadBounded (chunk_size : Nat) (st : ChunkState) : Prop :=
  (∀ c, st.chunks.head? = some c → c.content.length ≤ chunk_size) ∧
  (st.chunks = [] → st.current.length ≤ chunk_size)

/-- Two paragraphs of lengths 4 and 9: with `chunk_size = 10` the second
chunk is re-seeded as overlap-tail + separator + paragraph and ends up
15 characters long. -/
def textOverlapBlowup : List Char := "aaaa\n\nbbbbbbbbb".data

/-- The spec's single-chunk scenario input. -/
def textThreeParas : List Char := "para1\n\npara2\n\npara3".data

/-- A whitespace-padded input whose paragraphs are also padded. -/
def textPadded : List Char := "  aaa\n\nbbbb  ".data

/-- A 120-character non-blank page text. -/
def page120 : String := String.mk (List.replicate 120 'x')

/-- A PDF whose primary reader succeeds but yields only a short text,
while the secondary reader and the OCR engine would both succeed. -/
def envShortDirect : PdfEnv :=
  { primary := some ["short"]
  , secondary := some [{ text := "secondary page text", tables := [] }]
  , ocr := some ["ocr page text"]
  , ocrErrMsg := "" }

/-- A 2-page PDF: one 120-character non-blank page, one blank page. -/
def envTwoPages : PdfEnv :=
  { primary := some [page120, ""]
  , secondary := none
  , ocr := none
  , ocrErrMsg := "" }

/-- A PDF whose primary reader raises while the secondary reader
succeeds and detects one table. -/
def envPrimaryFails : PdfEnv :=
  { primary := none
  , secondary := some [{ text := "page one", tables := [[["a", "b"], ["c", "d"]]] }]
  , ocr := some ["ocr page text"]
  , ocrErrMsg := "" }

/-- A PDF on which both the primary and the secondary reader raise. -/
def envBothFail : PdfEnv :=
  { primary := none
  , secondary := none
  , ocr := some ["ocr page text"]
  , ocrErrMsg := "" }

/-- A second both-readers-raise PDF (OCR would also raise). -/
def envBothFailNoOcr : PdfEnv :=
  { primary := none
  , secondary := none
  , ocr := none
  , ocrErrMsg := "cannot rasterize" }

/-! ## Library facts about `dropWhile` and `pyStrip` -/

theorem dropWhile_dropWhile {α : Type*} (p : α → Bool) (l : List α) :
    (l.dropWhile p).dropWhile p = l.dropWhile p := by
  induction l with
  | nil => rfl
  | cons a t ih =>
    by_cases h : p a
    · simp only [List.dropWhile_cons, if_pos h]
      exact ih
    · simp [List.dropWhile_cons, h]

theorem dropWhile_rstrip {α : Type*} (p : α → Bool) (u : List α)
    (h : u.dropWhile p = u) :
    ((u.reverse.dropWhile p).reverse).dropWhile p = (u.reverse.dropWhile p).reverse := by
  cases u with
  | nil => simp
  | cons a t =>
    have ha : ¬ p a = true := by
      have := List.dropWhile_eq_self_iff.mp h (by simp)
      simpa using this
    rw [List.reverse_cons, List.dropWhile_append]
    by_cases he : (t.reverse.dropWhile p).isEmpty
    · rw [if_pos he]
      simp [List.dropWhile_cons, ha]
    · rw [if_neg he]
      rw [List.reverse_append]
      simp [List.dropWhile_cons, ha]

theorem pyStrip_pyStrip (s : List Char) : pyStrip (pyStrip s) = pyStrip s := by
  have h1 : (((s.dropWhile isPyWs).reverse.dropWhile isPyWs).reverse).dropWhile isPyWs
      = ((s.dropWhile isPyWs).reverse.dropWhile isPyWs).reverse :=
    dropWhile_rstrip isPyWs (s.dropWhile isPyWs) (dropWhile_dropWhile _ _)
  show (((((s.dropWhile isPyWs).reverse.dropWhile isPyWs).reverse).dropWhile
      isPyWs).reverse.dropWhile isPyWs).reverse
      = ((s.dropWhile isPyWs).reverse.dropWhile isPyWs).reverse
  rw [h1, List.reverse_reverse, dropWhile_dropWhile]

theorem pyStrip_length_le (s : List Char) : (pyStrip s).length ≤ s.length := by
  unfold pyStrip
  have h1 : ((s.dropWhile isPyWs).reverse.dropWhile isPyWs).length
      ≤ (s.dropWhile isPyWs).reverse.length := (List.dropWhile_sublist _).length_le
  have h2 : (s.dropWhile isPyWs).length ≤ s.length := (List.dropWhile_sublist _).length_le
  simp only [List.length_reverse] at h1 ⊢
  omega

theorem foldl_preserve {α β : Type*} {P : α → Prop} {f : α → β → α}
    (hf : ∀ a b, P a → P (f a b)) :
    ∀ (l : List β) (a : α), P a → P (l.foldl f a) := by
  intro l
  induction l with
  | nil => intro a h; simpa using h
  | cons b t ih =>
    intro a h
    rw [List.foldl_cons]
    exact ih _ (hf a b h)

/-! ## The small-text path of the chunker -/

theorem create_smart_chunks_small (text : List Char) (cs ov : Nat)
    (h : text.length ≤ cs) :
    create_smart_chunks text cs ov =
      [{ content := text, chunk_index := 0, total_chunks := 1
       , start_position := 0, end_position := (text.length : Int) }] := by
  unfold create_smart_chunks
  rw [if_pos (Or.inr h)]
  cases text with
  | nil => simp
  | cons a t => simp

/-- C4: for every text `T` with `length(T) ≤ chunkSize` (including empty
`T`), the smart chunker returns exactly one chunk whose content equals
`T`, with `chunk_index = 0`, `total_chunks = 1`, `start_position = 0`
and `end_position = length(T)`. -/
theorem chunker_single_chunk_below_threshold (text : List Char) (cs ov : Nat)
    (h : text.length ≤ cs) :
    create_smart_chunks text cs ov =
      [{ content := text, chunk_index := 0, total_chunks := 1
       , start_position := 0, end_position := (text.length : Int) }] :=
  create_smart_chunks_small text cs ov h

/-- Witness for C4: the spec's scenario `"para1\n\npara2\n\npara3"` with
`chunkSize = 1000`, `chunkOverlap = 400` yields a single verbatim chunk. -/
theorem chunker_single_chunk_below_threshold_witness :
    create_smart_chunks textThreeParas 1000 400 =
      [{ content := textThreeParas, chunk_index := 0, total_chunks := 1
       , start_position := 0, end_position := (19 : Int) }] :=
  chunker_single_chunk_below_threshold textThreeParas 1000 400 (by decide)

/-! ## Chunk contents are always stripped on the long-text path -/

theorem processSentence_stripped (cs : Nat) (st : ChunkState) (sen : List Char)
    (h : StrippedChunks st) : StrippedChunks (processSentence cs st sen) := by
  unfold processSentence
  split
  · intro c hc
    dsimp only at hc
    rcases List.mem_append.mp hc with hold | hnew
    · exact h c hold
    · rw [List.mem_singleton] at hnew
      subst hnew
      exact pyStrip_pyStrip _
  · intro c hc
    exact h c hc

theorem processParagraph_stripped (cs : Nat) (st : ChunkState) (para : List Char)
    (h : StrippedChunks st) : StrippedChunks (processParagraph cs st para) := by
  unfold processParagraph
  split
  · split
    · intro c hc
      dsimp only at hc
      rcases List.mem_append.mp hc with hold | hnew
      · exact h c hold
      · rw [List.mem_singleton] at hnew
        subst hnew
        exact pyStrip_pyStrip _
    · split
      · exact foldl_preserve (fun a b ha => processSentence_stripped cs a b ha) _ st h
      · intro c hc
        exact h c hc
  · split
    · intro c hc
      exact h c hc
    · intro c hc
      exact h c hc

/-- C10: when the input text is longer than `chunkSize`, every chunk the
smart chunker returns has whitespace-stripped content; when
`length(text) ≤ chunkSize` the single returned chunk is the text
verbatim, preserving surrounding whitespace. -/
theorem chunker_stripped_long_verbatim_short (text : List Char) (cs ov : Nat) :
    (cs < text.length →
      ∀ c ∈ create_smart_chunks text cs ov, pyStrip c.content = c.content) ∧
    (text.length ≤ cs →
      create_smart_chunks text cs ov =
        [{ content := text, chunk_index := 0, total_chunks := 1
         , start_position := 0, end_position := (text.length : Int) }]) := by
  constructor
  · intro hlen c hc
    unfold create_smart_chunks at hc
    rw [if_neg (by
      rintro (h | h)
      · subst h; simp at hlen
      · omega)] at hc
    have hst : StrippedChunks ((pySplit2 '\n' '\n' text).foldl (processParagraph cs)
        { chunks := [], current := [], chunk_index := 0, start_position := 0 }) :=
      foldl_preserve (fun a b ha => processParagraph_stripped cs a b ha) _ _
        (by intro c hc; simp at hc)
    simp only [List.mem_map] at hc
    obtain ⟨c0, hc0, rfl⟩ := hc
    dsimp only
    split at hc0
    · rcases List.mem_append.mp hc0 with hold | hnew
      · exact hst c0 hold
      · rw [List.mem_singleton] at hnew
        subst hnew
        exact pyStrip_pyStrip _
    · exact hst c0 hc0
  · exact fun h => create_smart_chunks_small text cs ov h

/-- Witness for C10: `"  aaa\n\nbbbb  "` (13 characters) is returned
verbatim, padding included, for `chunkSize = 30`, while for
`chunkSize = 10` its first chunk has the stripped content `"aaa"`. -/
theorem chunker_stripped_long_verbatim_short_witness :
    create_smart_chunks textPadded 30 2 =
      [{ content := textPadded, chunk_index := 0, total_chunks := 1
       , start_position := 0, end_position := (13 : Int) }] ∧
    pyStrip "aaa".data = "aaa".data := by
  refine ⟨(chunker_stripped_long_verbatim_short textPadded 30 2).2 (by decide), ?_⟩
  exact (chunker_stripped_long_verbatim_short textPadded 10 2).1 (by decide)
    { content := "aaa".data, chunk_index := 0, total_chunks := 2
    , start_position := 0, end_position := 5 } (by decide)

/-! ## The chunk-size bound fails in general; only the first chunk is bounded -/

/-- Counterexample to C3: `chunkSize = 10 > 2 = chunkOverlap`, yet on
`"aaaa\n\nbbbbbbbbb"` the chunker returns a chunk of length 15: the
overlap tail `"aaaa"` plus separator plus the 9-character paragraph. -/
theorem chunker_bound_counterexample :
    2 < 10 ∧ ∃ c ∈ create_smart_chunks textOverlapBlowup 10 2, 10 < c.content.length := by
  decide

theorem processSentence_headBounded (cs : Nat) (st : ChunkState) (sen : List Char)
    (h : HeadBounded cs st) : HeadBounded cs (processSentence cs st sen) := by
  obtain ⟨h1, h2⟩ := h
  unfold processSentence
  split
  · constructor
    · intro c hc
      dsimp only at hc
      rw [List.head?_append] at hc
      cases hch : st.chunks.head? with
      | some c0 =>
        rw [hch] at hc
        simp only [Option.or, Option.some.injEq] at hc
        subst hc
        exact h1 c0 hch
      | none =>
        rw [hch] at hc
        simp only [Option.or, List.head?_cons, Option.some.injEq] at hc
        have hnil : st.chunks = [] := List.head?_eq_none_iff.mp hch
        subst hc
        calc (pyStrip st.current).length ≤ st.current.length := pyStrip_length_le _
          _ ≤ cs := h2 hnil
    · intro hnil
      dsimp only at hnil
      exact absurd hnil (by simp)
  · next hle =>
    refine ⟨h1, fun hnil => ?_⟩
    dsimp only
    have := h2 hnil
    simp only [List.length_append, List.length_cons, List.length_nil]
    omega

theorem processParagraph_headBounded (cs : Nat) (st : ChunkState) (para : List Char)
    (h : HeadBounded cs st) : HeadBounded cs (processParagraph cs st para) := by
  obtain ⟨h1, h2⟩ := h
  unfold processParagraph
  split
  · split
    · constructor
      · intro c hc
        dsimp only at hc
        rw [List.head?_append] at hc
        cases hch : st.chunks.head? with
        | some c0 =>
          rw [hch] at hc
          simp only [Option.or, Option.some.injEq] at hc
          subst hc
          exact h1 c0 hch
        | none =>
          rw [hch] at hc
          simp only [Option.or, List.head?_cons, Option.some.injEq] at hc
          have hnil : st.chunks = [] := List.head?_eq_none_iff.mp hch
          subst hc
          calc (pyStrip st.current).length ≤ st.current.length := pyStrip_length_le _
            _ ≤ cs := h2 hnil
      · intro hnil
        dsimp only at hnil
        exact absurd hnil (by simp)
    · split
      · exact foldl_preserve (fun a b ha => processSentence_headBounded cs a b ha) _ st ⟨h1, h2⟩
      · next hbig =>
        refine ⟨h1, fun hnil => ?_⟩
        dsimp only
        omega
  · next hfits =>
    split
    · refine ⟨h1, fun hnil => ?_⟩
      dsimp only
      have := h2 hnil
      simp only [List.length_append, List.length_cons]
      omega
    · next hcur =>
      refine ⟨h1, fun hnil => ?_⟩
      dsimp only
      have hc0 : st.current = [] := by
        by_contra hne
        exact hcur hne
      rw [hc0] at hfits
      simp only [List.length_nil] at hfits
      omega

/-- Amended C3: chunk contents are *not* bounded by `chunkSize` in
general (see the counterexample: an overlap tail prepended to a
re-seeded buffer, or a single sentence longer than `chunkSize`, yields
an oversized chunk); what holds is that the *first* returned chunk
always has content of length at most `chunkSize`. -/
theorem chunker_first_chunk_bounded (text : List Char) (cs ov : Nat) :
    ∀ c, (create_smart_chunks text cs ov).head? = some c → c.content.length ≤ cs := by
  intro c hc
  unfold create_smart_chunks at hc
  by_cases hsmall : text = [] ∨ text.length ≤ cs
  · rw [if_pos hsmall] at hc
    simp only [List.head?_cons, Option.some.injEq] at hc
    subst hc
    rcases hsmall with h | h
    · subst h; simp
    · exact h
  · rw [if_neg hsmall] at hc
    have hst : HeadBounded cs ((pySplit2 '\n' '\n' text).foldl (processParagraph cs)
        { chunks := [], current := [], chunk_index := 0, start_position := 0 }) :=
      foldl_preserve (fun a b ha => processParagraph_headBounded cs a b ha) _ _
        ⟨by intro c h; simp at h, by intro _; simp⟩
    simp only [List.head?_map] at hc
    set st := (pySplit2 '\n' '\n' text).foldl (processParagraph cs)
      { chunks := [], current := [], chunk_index := 0, start_position := 0 } with hstdef
    split at hc
    · rw [List.head?_append] at hc
      cases hch : st.chunks.head? with
      | some c0 =>
        rw [hch] at hc
        simp only [Option.or, Option.map_some', Option.some.injEq] at hc
        subst hc
        exact hst.1 c0 hch
      | none =>
        rw [hch] at hc
        simp only [Option.or, List.head?_cons, Option.map_some', Option.some.injEq] at hc
        have hnil : st.chunks = [] := List.head?_eq_none_iff.mp hch
        subst hc
        calc (pyStrip st.current).length ≤ st.current.length := pyStrip_length_le _
          _ ≤ cs := hst.2 hnil
    · cases hch : st.chunks.head? with
      | some c0 =>
        rw [hch] at hc
        simp only [Option.map_some', Option.some.injEq] at hc
        subst hc
        exact hst.1 c0 hch
      | none =>
        rw [hch] at hc
        simp at hc

/-- Witness for the amended C3: on the counterexample input the first
chunk is `"aaaa"`, of length 4 ≤ 10. -/
theorem chunker_first_chunk_bounded_witness :
    (create_smart_chunks textOverlapBlowup 10 2).head? =
      some { content := "aaaa".data, chunk_index := 0, total_chunks := 2
           , start_position := 0, end_position := 4 } ∧
    ("aaaa".data).length ≤ 10 :=
  ⟨by decide, chunker_first_chunk_bounded textOverlapBlowup 10 2
    { content := "aaaa".data, chunk_index := 0, total_chunks := 2
    , start_position := 0, end_position := 4 } (by decide)⟩

/-! ## Shape lemmas for the PDF cascade -/

theorem ocr_events (env : PdfEnv) : (extract_pdf_with_ocr env).2 = [Ev.ocr] := by
  cases h : env.ocr <;> simp [extract_pdf_with_ocr, h]

theorem extract_pdf_tables_events (env : PdfEnv) (t : Nat) :
    (extract_pdf_tables env t).2 =
      if env.secondary = none then [Ev.tableExtraction, Ev.tmpCreated t]
      else [Ev.tableExtraction, Ev.tmpCreated t, Ev.tmpDeleted t] := by
  cases h : env.secondary <;> simp [extract_pdf_tables, h]

theorem extract_pdf_events_primary (env : PdfEnv) (ps : List String) (et uo : Bool)
    (hp : env.primary = some ps) :
    (extract_pdf env et uo).2 =
      (if (pyStripS (directText ps) = "" ∨ (directText ps).length < 100) ∧ uo = true
        then [Ev.ocr] else []) ++
      (if et = true then (extract_pdf_tables env 1).2 else []) := by
  simp only [extract_pdf, hp]
  rw [show directText ps = String.intercalate "\n\n" (directScan ps).1 from rfl]
  by_cases hcond : (pyStripS (String.intercalate "\n\n" (directScan ps).1) = ""
      ∨ (String.intercalate "\n\n" (directScan ps).1).length < 100) ∧ uo = true
  · cases et <;> simp [hcond, ocr_events]
  · cases et <;> simp [hcond]

theorem extract_pdf_result_primary (env : PdfEnv) (ps : List String) (et uo : Bool)
    (hp : env.primary = some ps) :
    (extract_pdf env et uo).1 =
      { text := if (pyStripS (directText ps) = "" ∨ (directText ps).length < 100) ∧ uo = true
                then (extract_pdf_with_ocr env).1 else directText ps
      , tables := if et = true then (extract_pdf_tables env 1).1 else []
      , pages := ps.length
      , needs_ocr := if (pyStripS (directText ps) = "" ∨ (directText ps).length < 100) ∧ uo = true
                     then true else (directScan ps).2
      , metadata := [] } := by
  simp only [extract_pdf, hp]
  rw [show directText ps = String.intercalate "\n\n" (directScan ps).1 from rfl]
  by_cases hcond : (pyStripS (String.intercalate "\n\n" (directScan ps).1) = ""
      ∨ (String.intercalate "\n\n" (directScan ps).1).length < 100) ∧ uo = true
  · cases et <;> simp [hcond]
  · cases et <;> simp [hcond]

theorem extract_pdf_fallback_ok (env : PdfEnv) (sp : List SecPage) (et uo : Bool)
    (hp : env.primary = none) (hs : env.secondary = some sp) :
    extract_pdf env et uo =
      ({ text := String.intercalate "\n\n" (sp.enum.foldl
            (fun acc ip =>
              if ip.2.text ≠ "" then acc ++ [pageHeader (ip.1 + 1) ++ ip.2.text] else acc)
            [])
       , tables := [], pages := sp.length, needs_ocr := false, metadata := [] },
       [Ev.tmpCreated 0, Ev.fallbackParser, Ev.tmpDeleted 0]) := by
  simp [extract_pdf, hp, hs]

theorem extract_pdf_fallback_fail (env : PdfEnv) (et uo : Bool)
    (hp : env.primary = none) (hs : env.secondary = none) :
    extract_pdf env et uo =
      if uo = true then
        ({ text := (extract_pdf_with_ocr env).1, tables := [], pages := 0
         , needs_ocr := true, metadata := [] },
         [Ev.tmpCreated 0, Ev.fallbackParser, Ev.ocr])
      else
        ({ text := "", tables := [], pages := 0, needs_ocr := false, metadata := [] },
         [Ev.tmpCreated 0, Ev.fallbackParser]) := by
  cases uo <;> simp [extract_pdf, hp, hs, ocr_events]

/-! ## C1: which strategy is invoked when -/

/-- Counterexample to C1: on a PDF whose primary reader opens fine but
yields only the 22-character direct text (acceptance fails), and whose
secondary reader would succeed, the cascade invokes OCR at once and
never the fallback-parser strategy. -/
theorem cascade_fallback_before_ocr_counterexample :
    (directText ["short"]).length < 100 ∧
    envShortDirect.primary = some ["short"] ∧
    envShortDirect.secondary ≠ none ∧
    Ev.ocr ∈ (extract_pdf envShortDirect false true).2 ∧
    Ev.fallbackParser ∉ (extract_pdf envShortDirect false true).2 := by
  decide

/-- Amended C1: the fallback-parser strategy is invoked exactly when the
primary reader raises on open; OCR is invoked exactly when `useOcr` is
enabled and either the primary reader succeeded but the direct text
fails the acceptance test (blank after trimming or shorter than 100), or
both readers raised. -/
theorem cascade_strategy_invocation (env : PdfEnv) (et uo : Bool) :
    (Ev.fallbackParser ∈ (extract_pdf env et uo).2 ↔ env.primary = none) ∧
    (Ev.ocr ∈ (extract_pdf env et uo).2 ↔
      uo = true ∧
      ((∃ ps, env.primary = some ps ∧
          (pyStripS (directText ps) = "" ∨ (directText ps).length < 100)) ∨
        (env.primary = none ∧ env.secondary = none))) := by
  cases hp : env.primary with
  | some ps =>
    have he := extract_pdf_events_primary env ps et uo hp
    by_cases hcond : pyStripS (directText ps) = "" ∨ (directText ps).length < 100 <;>
      cases uo <;> cases et <;> cases hs : env.secondary <;>
        simp [he, extract_pdf_tables_events, hp, hcond, hs]
  | none =>
    cases hs : env.secondary with
    | some sp =>
      have he := extract_pdf_fallback_ok env sp et uo hp hs
      simp [he, hp, hs]
    | none =>
      have he := extract_pdf_fallback_fail env et uo hp hs
      cases uo <;> simp [he, hp, hs]

/-- Witness for the amended C1: on the short-direct-text PDF with
`useOcr` enabled, the characterization instantiates to OCR being
invoked. -/
theorem cascade_strategy_invocation_witness :
    Ev.ocr ∈ (extract_pdf envShortDirect false true).2 :=
  (cascade_strategy_invocation envShortDirect false true).2.mpr
    ⟨rfl, Or.inl ⟨["short"], rfl, by decide⟩⟩

/-! ## C2: an accepted direct strategy stops the cascade -/

/-- C2: whenever the direct text is non-blank after stripping and at
least 100 characters long, neither OCR nor the fallback parser is
invoked, the result text is the direct concatenation, and `needs_ocr`
is exactly the flag set by the blank-page loop. -/
theorem cascade_direct_accepted (env : PdfEnv) (et uo : Bool) (ps : List String)
    (hp : env.primary = some ps)
    (hne : pyStripS (directText ps) ≠ "")
    (hlen : 100 ≤ (directText ps).length) :
    Ev.ocr ∉ (extract_pdf env et uo).2 ∧
    Ev.fallbackParser ∉ (extract_pdf env et uo).2 ∧
    (extract_pdf env et uo).1.text = directText ps ∧
    (extract_pdf env et uo).1.needs_ocr = (directScan ps).2 := by
  have hcond : ¬ ((pyStripS (directText ps) = "" ∨ (directText ps).length < 100) ∧ uo = true) := by
    rintro ⟨h | h, -⟩
    · exact hne h
    · omega
  have he := extract_pdf_events_primary env ps et uo hp
  have hr := extract_pdf_result_primary env ps et uo hp
  cases et <;> cases hs : env.secondary <;>
    simp [he, hr, extract_pdf_tables_events, hs, hcond]

set_option maxRecDepth 4000 in
/-- Witness for C2: the 2-page PDF with one 120-character page and one
blank page is accepted (total 137 ≥ 100), gets `needs_ocr = true` from
the blank page, and OCR is never invoked. -/
theorem cascade_direct_accepted_witness :
    Ev.ocr ∉ (extract_pdf envTwoPages true true).2 ∧
    Ev.fallbackParser ∉ (extract_pdf envTwoPages true true).2 ∧
    (extract_pdf envTwoPages true true).1.needs_ocr = true := by
  have h := cascade_direct_accepted envTwoPages true true [page120, ""] rfl
    (by decide) (by decide)
  refine ⟨h.1, h.2.1, ?_⟩
  rw [h.2.2.2]
  decide

/-! ## C5: the table step runs only when the primary reader succeeded -/

/-- Counterexample to C5: `extract_tables` is requested and the
secondary reader succeeds (it even finds a table), but because the
primary reader raised — the fallback-parser strategy produced the text —
the table-extraction step is never invoked and the result's table list
is empty. -/
theorem pdf_tables_regardless_counterexample :
    envPrimaryFails.secondary ≠ none ∧
    (extract_pdf_tables envPrimaryFails 1).1 ≠ [] ∧
    Ev.tableExtraction ∉ (extract_pdf envPrimaryFails true true).2 ∧
    (extract_pdf envPrimaryFails true true).1.tables = [] := by
  decide

/-- Amended C5: when `extractTables` is requested, the table step runs
if and only if the primary reader opened the content without raising
(regardless of whether direct text was accepted or OCR replaced it); on
the fallback path tables stay empty; and a table-step failure
(secondary reader raising) is swallowed into an empty table list. -/
theorem pdf_tables_only_after_primary_pass (env : PdfEnv) (uo : Bool) :
    (Ev.tableExtraction ∈ (extract_pdf env true uo).2 ↔ env.primary ≠ none) ∧
    (∀ ps, env.primary = some ps →
      (extract_pdf env true uo).1.tables = (extract_pdf_tables env 1).1) ∧
    (env.secondary = none → (extract_pdf_tables env 1).1 = []) ∧
    (env.primary = none → (extract_pdf env true uo).1.tables = []) := by
  refine ⟨?_, ?_, ?_, ?_⟩
  · cases hp : env.primary with
    | some ps =>
      have he := extract_pdf_events_primary env ps true uo hp
      by_cases hcond : pyStripS (directText ps) = "" ∨ (directText ps).length < 100 <;>
        cases uo <;> cases hs : env.secondary <;>
          simp [he, extract_pdf_tables_events, hp, hcond, hs]
    | none =>
      cases hs : env.secondary with
      | some sp => simp [extract_pdf_fallback_ok env sp true uo hp hs, hp]
      | none =>
        have he := extract_pdf_fallback_fail env true uo hp hs
        cases uo <;> simp [he, hp]
  · intro ps hp
    have hr := extract_pdf_result_primary env ps true uo hp
    simp [hr]
  · intro hs
    simp [extract_pdf_tables, hs]
  · intro hp
    cases hs : env.secondary with
    | some sp => simp [extract_pdf_fallback_ok env sp true uo hp hs]
    | none =>
      have he := extract_pdf_fallback_fail env true uo hp hs
      cases uo <;> simp [he]

/-- Witness for the amended C5: on the accepted 2-page PDF the table
step is invoked, and — its secondary reader raising — it is swallowed
into an empty table list. -/
theorem pdf_tables_only_after_primary_pass_witness :
    Ev.tableExtraction ∈ (extract_pdf envTwoPages true true).2 ∧
    (extract_pdf envTwoPages true true).1.tables = (extract_pdf_tables envTwoPages 1).1 ∧
    (extract_pdf_tables envTwoPages 1).1 = [] := by
  have h := pdf_tables_only_after_primary_pass envTwoPages true
  exact ⟨h.1.mpr (by decide), h.2.1 [page120, ""] rfl, h.2.2.1 rfl⟩

/-! ## C6: both readers raise with OCR disabled -/

/-- Counterexample to C6: on a PDF where both readers raise and with
`useOcr` disabled, the result does carry empty text — but
`needs_ocr = false`, not `true` as the claim states (the initializer is
never updated on this path). -/
theorem both_fail_needs_ocr_counterexample :
    envBothFail.primary = none ∧ envBothFail.secondary = none ∧
    (extract_pdf envBothFail false false).1.text = "" ∧
    (extract_pdf envBothFail false false).1.needs_ocr = false := by
  decide

/-- Amended C6: when both readers raise and `useOcr` is disabled the
call still succeeds and returns empty text, empty tables and zero
pages — but with `needs_ocr = false`. -/
theorem both_fail_empty_text (env : PdfEnv) (et : Bool)
    (hp : env.primary = none) (hs : env.secondary = none) :
    (extract_pdf env et false).1.text = "" ∧
    (extract_pdf env et false).1.needs_ocr = false ∧
    (extract_pdf env et false).1.tables = [] ∧
    (extract_pdf env et false).1.pages = 0 := by
  have he := extract_pdf_fallback_fail env et false hp hs
  simp [he]

/-- Witness for the amended C6. -/
theorem both_fail_empty_text_witness :
    (extract_pdf envBothFailNoOcr true false).1.text = "" ∧
    (extract_pdf envBothFailNoOcr true false).1.needs_ocr = false ∧
    (extract_pdf envBothFailNoOcr true false).1.tables = [] ∧
    (extract_pdf envBothFailNoOcr true false).1.pages = 0 :=
  both_fail_empty_text envBothFailNoOcr true rfl rfl

/-! ## C8: temporary-file cleanup -/

/-- Counterexample to C8: when the secondary reader raises after the
fallback step materialized the byte content, the temporary file is
created but never deleted — cleanup is not guaranteed on the
parse-failure exit path. -/
theorem tmpfile_leak_counterexample :
    Ev.tmpCreated 0 ∈ (extract_pdf envBothFailNoOcr false true).2 ∧
    Ev.tmpDeleted 0 ∉ (extract_pdf envBothFailNoOcr false true).2 := by
  decide

/-- Amended C8: the temporary file of the fallback step or the table
step is deleted on the success path (whenever the secondary reader
opens), but when the secondary reader raises after materialization the
file is leaked — in the fallback step and in the table step alike. -/
theorem pdf_tmpfile_cleanup_asymmetric (env : PdfEnv) (et uo : Bool) :
    ((∃ sp, env.secondary = some sp) →
      ∀ n, Ev.tmpCreated n ∈ (extract_pdf env et uo).2 →
        Ev.tmpDeleted n ∈ (extract_pdf env et uo).2) ∧
    (env.primary = none → env.secondary = none →
      Ev.tmpCreated 0 ∈ (extract_pdf env et uo).2 ∧
      Ev.tmpDeleted 0 ∉ (extract_pdf env et uo).2) ∧
    (∀ ps, env.primary = some ps → env.secondary = none → et = true →
      Ev.tmpCreated 1 ∈ (extract_pdf env et uo).2 ∧
      Ev.tmpDeleted 1 ∉ (extract_pdf env et uo).2) := by
  refine ⟨?_, ?_, ?_⟩
  · rintro ⟨sp, hs⟩ n hmem
    cases hp : env.primary with
    | some ps =>
      rw [extract_pdf_events_primary env ps et uo hp, extract_pdf_tables_events, hs]
        at hmem ⊢
      by_cases hcond : (pyStripS (directText ps) = ""
          ∨ (directText ps).length < 100) ∧ uo = true <;>
        cases et <;> simp_all [hcond]
    | none =>
      rw [extract_pdf_fallback_ok env sp et uo hp hs] at hmem ⊢
      simp at hmem ⊢
      exact hmem
  · intro hp hs
    rw [extract_pdf_fallback_fail env et uo hp hs]
    cases uo <;> simp
  · intro ps hp hs het
    subst het
    rw [extract_pdf_events_primary env ps true uo hp, extract_pdf_tables_events, hs]
    by_cases hcond : (pyStripS (directText ps) = ""
        ∨ (directText ps).length < 100) ∧ uo = true <;> simp [hcond]

/-- Witness for the amended C8: a balanced create/delete pair on a
successful secondary open, and the two leak scenarios at concrete
environments. -/
theorem pdf_tmpfile_cleanup_asymmetric_witness :
    Ev.tmpDeleted 1 ∈ (extract_pdf envShortDirect true true).2 ∧
    (Ev.tmpCreated 0 ∈ (extract_pdf envBothFailNoOcr true false).2 ∧
      Ev.tmpDeleted 0 ∉ (extract_pdf envBothFailNoOcr true false).2) ∧
    (Ev.tmpCreated 1 ∈ (extract_pdf envTwoPages true true).2 ∧
      Ev.tmpDeleted 1 ∉ (extract_pdf envTwoPages true true).2) := by
  have h1 := (pdf_tmpfile_cleanup_asymmetric envShortDirect true true).1
    ⟨_, rfl⟩ 1 (by decide)
  have h2 := (pdf_tmpfile_cleanup_asymmetric envBothFailNoOcr true false).2.1 rfl rfl
  have h3 := (pdf_tmpfile_cleanup_asymmetric envTwoPages true true).2.2
    [page120, ""] rfl rfl rfl
  exact ⟨h1, h2, h3⟩

/-! ## C7: dispatch routing and the surfaced status of UnsupportedFormat -/

/-- C7 (evaluating the code at the failing input): the dispatch table
routes each listed suffix to exactly the extractor the table names, but
for filename `"Report.XYZ"` — no suffix matches — the explicitly raised
400 client error is intercepted by the catch-all handler and surfaced as
a **500** server error whose detail embeds the **lowercased** filename
`report.xyz`, not the original one. -/
theorem dispatch_unsupported_surfaces_500 :
    dispatch (pyLower "Report.XYZ".data) = none ∧
    extract_document_dispatch "Report.XYZ".data =
      Except.error { status_code := 500
                   , detail := "400: Formato no soportado: report.xyz".data } ∧
    extract_document_dispatch "a.PDF".data = Except.ok Extractor.pdf ∧
    extract_document_dispatch "b.docx".data = Except.ok Extractor.docx ∧
    extract_document_dispatch "c.XLS".data = Except.ok Extractor.excel ∧
    extract_document_dispatch "d.ppt".data = Except.ok Extractor.pptx ∧
    extract_document_dispatch "e.jpeg".data = Except.ok Extractor.image ∧
    extract_document_dispatch "f.md".data = Except.ok Extractor.text := by
  decide

/-! ## C9: the text extractor never fails -/

/-- C9: the text extractor is total on byte strings: it reports the
UTF-8 decoding (no encoding tag) when the bytes decode, otherwise the
Latin-1 decoding tagged `"latin-1"` (one character per byte, so Latin-1
always decodes); in both cases `characters` is the decoded length and
`lines` counts newline-split pieces of the decoded text. -/
theorem extract_text_total_fallback (content : List (Fin 256)) :
    (extract_text content).characters = (extract_text content).text.length ∧
    (extract_text content).lines = (pySplit1 '\n' (extract_text content).text).length ∧
    (∀ t, utf8Decode content = some t →
      (extract_text content).text = t ∧ (extract_text content).encoding = none) ∧
    (utf8Decode content = none →
      (extract_text content).text = latin1 content ∧
      (extract_text content).encoding = some "latin-1" ∧
      (extract_text content).characters = content.length) := by
  unfold extract_text
  cases h : utf8Decode content with
  | some t => simp
  | none => simp [latin1]

/-- Witness for C9: `68 69` is valid UTF-8 (`"hi"`, untagged); `FF 68`
is not, and decodes via Latin-1 to two characters with the tag. -/
theorem extract_text_total_fallback_witness :
    (extract_text [0x68, 0x69]).text = ['h', 'i'] ∧
    (extract_text [0x68, 0x69]).encoding = none ∧
    (extract_text [0xff, 0x68]).text = latin1 [0xff, 0x68] ∧
    (extract_text [0xff, 0x68]).encoding = some "latin-1" ∧
    (extract_text [0xff, 0x68]).characters = 2 := by
  have h1 := (extract_text_total_fallback [0x68, 0x69]).2.2.1 ['h', 'i'] (by decide)
  have h2 := (extract_text_total_fallback [0xff, 0x68]).2.2.2 (by decide)
  exact ⟨h1.1, h1.2, h2.1, h2.2.1, h2.2.2⟩

end DocExtractor
